import Mathlib

/-!
Verification of the Hagelslag Island economic forecasting scripts
(src/main_script.py and src/Untitled-1.py).

The source is a flat procedural script over floating point numbers; we
embed its arithmetic shallowly over the rationals, keeping the source
variable names where Lean allows it.  Dictionary tables indexed by year
are embedded as total functions on natural numbers that return the
stored value on the keys present in the source dictionary and 0
elsewhere; the source only evaluates them on keys that are present, or
uses dict.get with default 0, which the 0 branch models exactly.
The file lists all definitions first and all theorems afterwards.
-/

namespace HagelslagIsland

/- ===================================================================
   DEFINITIONS
   =================================================================== -/

/- Inequality Analyzer: calculate_gini (src/main_script.py 1203-1214). -/

/-- Rank-weighted sum: the source expression
np.sum(np.arange(1, n + 1) * sorted_incomes), generalized over the
starting rank so that it can be defined by structural recursion. -/
def rankWeightedSum : ℕ → List ℚ → ℚ
  | _, [] => 0
  | r, x :: xs => (r : ℚ) * x + rankWeightedSum (r + 1) xs

/-- Body of the Gini formula of the source applied to the sorted
positive income list: (2 * sum(rank_i * x_i) / (n * total)) - (n+1)/n,
with 1-based ranks; cumsum[-1] in the source is the total of the sorted
list. -/
def giniSorted (s : List ℚ) : ℚ :=
  2 * rankWeightedSum 1 s / ((s.length : ℚ) * s.sum) - ((s.length : ℚ) + 1) / (s.length : ℚ)

/-- Embedding of calculate_gini (src/main_script.py 1203-1214): return
0 on an empty list, filter to strictly positive incomes, return 0 if
none remain, otherwise sort ascending and apply the discrete Gini
formula. -/
def calculate_gini (incomes : List ℚ) : ℚ :=
  if incomes.length = 0 then 0
  else if (incomes.filter fun i => decide (0 < i)).length = 0 then 0
  else giniSorted (List.insertionSort (· ≤ ·) (incomes.filter fun i => decide (0 < i)))

/- Year-101 forecast chain (src/main_script.py 199-225), parametric
over the year-100 baseline and the calibrated constants, so that the
per-profession advance rules can be evaluated on arbitrary inputs such
as the scenario of the spec. -/

/-- Calibrated constants consumed by the year-101 advance:
FISHER_LOW_AVG, LOCUST_FARMER_DAMAGE, WEATHER_IMPACT[101],
CRAFTSMAN_GROWTH, SERVICE_GROWTH, CIVIL_WORKFORCE_DECLINE. -/
structure Params101 where
  fisherLowAvg : ℚ
  locustFarmerDamage : ℚ
  weatherImpact101 : ℚ
  craftsmanGrowth : ℚ
  serviceGrowth : ℚ
  civilWorkforceDecline : ℚ

/-- Year-100 baseline: per-profession total incomes and the fisher
headcount (fisher_count_100). -/
structure State100 where
  fisher : ℚ
  farmer : ℚ
  craftsman : ℚ
  serviceProv : ℚ
  civil : ℚ
  fisherCount : ℚ

/-- fisher_101 = FISHER_LOW_AVG * fisher_count_100 (line 206): the
fisher income is reset to the cycle-phase average per head times the
headcount, without reference to the prior fisher income. -/
def fisher_101 (p : Params101) (s : State100) : ℚ :=
  p.fisherLowAvg * s.fisherCount

/-- farmer_101 = farmer_100 * (1 + LOCUST_FARMER_DAMAGE) *
(1 + WEATHER_IMPACT[101]) (line 209). -/
def farmer_101 (p : Params101) (s : State100) : ℚ :=
  s.farmer * (1 + p.locustFarmerDamage) * (1 + p.weatherImpact101)

/-- craftsman_101 = craftsman_100 * (1 + CRAFTSMAN_GROWTH) (line 212). -/
def craftsman_101 (p : Params101) (s : State100) : ℚ :=
  s.craftsman * (1 + p.craftsmanGrowth)

/-- service_101 = service_100 * (1 + SERVICE_GROWTH) (line 215). -/
def service_101 (p : Params101) (s : State100) : ℚ :=
  s.serviceProv * (1 + p.serviceGrowth)

/-- civil_101 = civil_100 * (1 + CIVIL_WORKFORCE_DECLINE) (line 218). -/
def civil_101 (p : Params101) (s : State100) : ℚ :=
  s.civil * (1 + p.civilWorkforceDecline)

/-- Sum of the tracked profession incomes produced for year 101. -/
def trackedTotal_101 (p : Params101) (s : State100) : ℚ :=
  fisher_101 p s + farmer_101 p s + craftsman_101 p s + service_101 p s + civil_101 p s

/-- Scenario A parameters: low-phase fisher cycle average 80 per head,
a -0.5 crop-damage event for the farmer in year 101, no weather and no
growth effects. -/
def scenarioParams101 : Params101 :=
  ⟨80, -(1/2), 0, 0, 0, 0⟩

/-- Scenario A baseline: year-100 incomes fisher 1000 and farmer 500,
fisher headcount 10, all other professions absent (0). -/
def scenarioState100 : State100 :=
  ⟨1000, 500, 0, 0, 0, 10⟩

/- Year-101 policy tables (src/main_script.py 99-132) and the year-101
policy multiplier (line 224). -/

/-- PRESTIGE_PROJECT_BOOST dictionary (lines 99-105). -/
def PRESTIGE_PROJECT_BOOST : ℕ → ℚ
  | 101 => 8/1000
  | 102 => 15/1000
  | 103 => 22/1000
  | 104 => 28/1000
  | 105 => 30/1000
  | _ => 0

/-- RETIREMENT_POLICY_BOOST dictionary (lines 113-119). -/
def RETIREMENT_POLICY_BOOST : ℕ → ℚ
  | 101 => 5/1000
  | 102 => 10/1000
  | 103 => 14/1000
  | 104 => 17/1000
  | 105 => 20/1000
  | _ => 0

/-- TRAINING_PROGRAM_BOOST dictionary (lines 126-132). -/
def TRAINING_PROGRAM_BOOST : ℕ → ℚ
  | 101 => 5/1000
  | 102 => 12/1000
  | 103 => 16/1000
  | 104 => 18/1000
  | 105 => 20/1000
  | _ => 0

/-- policy_multiplier_101 (line 224): product of the three (1 + boost)
factors for year 101. -/
def policy_multiplier_101 : ℚ :=
  (1 + PRESTIGE_PROJECT_BOOST 101) * (1 + RETIREMENT_POLICY_BOOST 101)
    * (1 + TRAINING_PROGRAM_BOOST 101)

/- Year-106 forecast chain (src/main_script.py 368-486), parametric
over the year-105 baseline actuals. -/

def HOMEMAKER_EXIT_RATE : ℚ := 2/100

def HOME_UNEMP_GROWTH : ℚ := 5/100

def NEW_ENTRANT_INCOME : ℚ := 4500

def ENTRANT_GROWTH : ℚ := 12/1000

def CRAFTSMAN_GROWTH_R : ℚ := 8/1000

def SERVICE_GROWTH_R : ℚ := 11/1000

def CIVIL_SERVANT_GROWTH_R : ℚ := 25/1000

def FARMER_GROWTH_R : ℚ := 4/1000

/-- FISHER_LOW_AVG_R (line 378): 5-year rolling average of low-phase
fisher income per head. -/
def FISHER_LOW_AVG_R : ℚ :=
  (278097/100 + 276410/100 + 247416/100 + 247811/100 + 248975/100) / 5

/-- RETIRED_PROJ dictionary (line 388). -/
def RETIRED_PROJ : ℕ → ℚ
  | 106 => 22000
  | 107 => 24000
  | 108 => 27000
  | 109 => 30000
  | 110 => 33000
  | _ => 0

/-- POP_PRODUCTIVITY_NEW dictionary (line 443). -/
def POP_PRODUCTIVITY_NEW : ℕ → ℚ
  | 106 => 1002/1000
  | 107 => 1002/1000
  | 108 => 1001/1000
  | 109 => 1001/1000
  | 110 => 1001/1000
  | _ => 0

/-- PRESTIGE_101_CARRYOVER dictionary (line 399); the source looks it
up with .get(year, 0). -/
def PRESTIGE_101_CARRYOVER : ℕ → ℚ
  | 106 => 25/1000
  | _ => 0

def WIND_TRANSITION_DRAG : ℚ := -(3/100)

/-- WIND_DISPLEASURE_DRAG dictionary (lines 410-416). -/
def WIND_DISPLEASURE_DRAG : ℕ → ℚ
  | 106 => -(5/1000)
  | 107 => -(10/1000)
  | 108 => -(15/1000)
  | 109 => -(15/1000)
  | 110 => -(10/1000)
  | _ => 0

/-- PRESTIGE_106_BOOST dictionary (line 428). -/
def PRESTIGE_106_BOOST : ℕ → ℚ
  | 107 => 8/1000
  | 108 => 15/1000
  | 109 => 22/1000
  | 110 => 28/1000
  | _ => 0

/-- Year-105 baseline actuals feeding the year-106 advance: the eight
tracked profession incomes plus the fisher and homemaker headcounts. -/
structure Baseline105 where
  fisher : ℚ
  farmer : ℚ
  craftsman : ℚ
  serviceProv : ℚ
  civil : ℚ
  retired : ℚ
  homemaker : ℚ
  unemployed : ℚ
  fisherCount : ℚ
  hmCount : ℚ

def hm_leaving_106 (b : Baseline105) : ℚ := b.hmCount * HOMEMAKER_EXIT_RATE

def hm_count_106 (b : Baseline105) : ℚ := b.hmCount - hm_leaving_106 b

/-- hm_income_106 (line 469); the source divides by the prior
homemaker headcount. -/
def hm_income_106 (b : Baseline105) : ℚ :=
  b.homemaker * (1 + HOME_UNEMP_GROWTH) * (hm_count_106 b / b.hmCount)

def unemp_106 (b : Baseline105) : ℚ := b.unemployed * (1 + HOME_UNEMP_GROWTH)

/-- cum_entrant_inc after the year-106 update (line 471); it starts
from 0.0 at line 464. -/
def cum_entrant_inc_106 (b : Baseline105) : ℚ :=
  0 * (1 + ENTRANT_GROWTH) + hm_leaving_106 b * NEW_ENTRANT_INCOME

def fisher_106 (b : Baseline105) : ℚ := FISHER_LOW_AVG_R * b.fisherCount

def craftsman_106 (b : Baseline105) : ℚ := b.craftsman * (1 + CRAFTSMAN_GROWTH_R)

def service_106 (b : Baseline105) : ℚ := b.serviceProv * (1 + SERVICE_GROWTH_R)

def civil_106 (b : Baseline105) : ℚ := b.civil * (1 + CIVIL_SERVANT_GROWTH_R)

def farmer_106 (b : Baseline105) : ℚ := b.farmer * (1 + FARMER_GROWTH_R)

def retired_106 : ℚ := RETIRED_PROJ 106

/-- prof_sum_106 (lines 480-481). -/
def prof_sum_106 (b : Baseline105) : ℚ :=
  fisher_106 b + craftsman_106 b + service_106 b + civil_106 b + farmer_106 b
    + retired_106 + hm_income_106 b + unemp_106 b + cum_entrant_inc_106 b

/-- policy_106 (lines 482-485): product of the four (1 + effect)
factors active in year 106. -/
def policy_106 : ℚ :=
  (1 + PRESTIGE_101_CARRYOVER 106) * (1 + WIND_TRANSITION_DRAG)
    * (1 + WIND_DISPLEASURE_DRAG 106) * (1 + PRESTIGE_106_BOOST 106)

/-- gdp_106 (line 486): profession sum times productivity times the
policy multiplier, with no anchor scale factor anywhere. -/
def gdp_106 (b : Baseline105) : ℚ :=
  prof_sum_106 b * POP_PRODUCTIVITY_NEW 106 * policy_106

/-- Sum of the tracked profession incomes of the anchor year 105. -/
def trackedTotal_105 (b : Baseline105) : ℚ :=
  b.fisher + b.farmer + b.craftsman + b.serviceProv + b.civil
    + b.retired + b.homemaker + b.unemployed

/-- Modelled from the spec (section 4.2 steps 3-4, which the source
does not implement): the first forecast year of a chain is the tracked
profession total times the scale factor
actual_gdp_at_anchor / tracked_total_at_anchor, times the productivity
and policy multipliers. -/
def gdp_106_specScaled (actualGdp105 : ℚ) (b : Baseline105) : ℚ :=
  (actualGdp105 / trackedTotal_105 b) * prof_sum_106 b
    * POP_PRODUCTIVITY_NEW 106 * policy_106

/-- Concrete year-105 baseline used to exhibit the absence of the
scale factor: craftsman income 1000, homemaker headcount 1, everything
else 0, so that the tracked anchor total is 1000. -/
def bC2 : Baseline105 := ⟨0, 0, 1000, 0, 0, 0, 0, 0, 0, 1⟩

/- Error signalling (spec section 7): the per-year advance divides by
headcounts, and Python raises ZeroDivisionError on a zero denominator,
aborting the whole computation of the year.  The fallible divisions
are embedded in the Except monad. -/

/-- Failure signals of the engine. -/
inductive EngineError where
  | divisionByZero
deriving DecidableEq

/-- Guarded division: fails with divisionByZero exactly when the
denominator is zero, as Python division does. -/
def divE (a b : ℚ) : Except EngineError ℚ :=
  if b = 0 then Except.error EngineError.divisionByZero else Except.ok (a / b)

/-- Year-106 advance (src/main_script.py 466-486) with the homemaker
headcount division made fallible: the whole year fails when the prior
homemaker headcount is zero. -/
def year_106_advance (b : Baseline105) : Except EngineError ℚ := do
  let ratio ← divE (hm_count_106 b) b.hmCount
  let hmInc := b.homemaker * (1 + HOME_UNEMP_GROWTH) * ratio
  let profSum := fisher_106 b + craftsman_106 b + service_106 b + civil_106 b
    + farmer_106 b + retired_106 + hmInc + unemp_106 b + cum_entrant_inc_106 b
  return profSum * POP_PRODUCTIVITY_NEW 106 * policy_106

/-- FISHER_HIGH_AVG_110 (src/main_script.py 835-837) with the
per-profession income divided by the workforce headcount of years 102,
105 and 108; fails if any headcount is zero. -/
def FISHER_HIGH_AVG_110_calc (inc : ℕ → ℚ) (wf : ℕ → ℚ) : Except EngineError ℚ := do
  let a ← divE (inc 102) (wf 102)
  let b ← divE (inc 105) (wf 105)
  let c ← divE (inc 108) (wf 108)
  return (a + b + c) / 3

/- Gini projection 111-115 (src/main_script.py 1255-1305). -/

/-- TAX_GINI_EFFECT dictionary (lines 1257-1263). -/
def TAX_GINI_EFFECT : ℕ → ℚ
  | 111 => -(10/1000)
  | 112 => -(12/1000)
  | 113 => -(12/1000)
  | 114 => -(10/1000)
  | 115 => -(10/1000)
  | _ => 0

/-- FISHER_GINI_EFFECT dictionary (lines 1268-1274). -/
def FISHER_GINI_EFFECT : ℕ → ℚ
  | 111 => 6/1000
  | 112 => -(4/1000)
  | 113 => -(4/1000)
  | 114 => 5/1000
  | 115 => -(4/1000)
  | _ => 0

/-- FARMER_RESISTANCE_GINI dictionary (lines 1278-1281). -/
def FARMER_RESISTANCE_GINI : ℕ → ℚ
  | 114 => 1/1000
  | 115 => 1/1000
  | _ => 0

/-- COMMUNITY_GINI_EFFECT dictionary (lines 1284-1289). -/
def COMMUNITY_GINI_EFFECT : ℕ → ℚ
  | 112 => -(2/1000)
  | 113 => -(2/1000)
  | 114 => -(2/1000)
  | 115 => -(2/1000)
  | _ => 0

/-- One step of the 111-115 Gini prediction loop (lines 1293-1305):
the four policy deltas plus the mean-reversion pull
(0.35 - base_gini) * 0.02. -/
def predicted_gini_step (year : ℕ) (base_gini : ℚ) : ℚ :=
  base_gini + TAX_GINI_EFFECT year + FISHER_GINI_EFFECT year
    + FARMER_RESISTANCE_GINI year + COMMUNITY_GINI_EFFECT year
    + (35/100 - base_gini) * (2/100)

/-- predicted_gini series: index n holds the prediction for year
110 + n, seeded from the year-110 Gini. -/
def predicted_gini (gini_110 : ℚ) : ℕ → ℚ
  | 0 => gini_110
  | n + 1 => predicted_gini_step (111 + n) (predicted_gini gini_110 n)

/- Years 116-120 forecast (src/main_script.py 1447-1651). -/

/-- FISHER_CYCLE_116_120 (lines 1532-1538): true on the HIGH income
years 117 and 120. -/
def FISHER_CYCLE_116_120_HIGH : ℕ → Bool
  | 117 => true
  | 120 => true
  | _ => false

/-- community_gini of the 116-120 Gini loop (line 1628). -/
def community_gini (year : ℕ) : ℚ := if 117 ≤ year then -(5/1000) else 0

/-- security_gini_full of the 116-120 Gini loop (line 1631). -/
def security_gini_full (year : ℕ) : ℚ := -(15/1000) * ((year : ℚ) - 115) / 5

/-- training_gini of the 116-120 Gini loop (line 1634). -/
def training_gini (year : ℕ) : ℚ := if year = 116 then -(3/1000) else 0

/-- trade_gini of the 116-120 Gini loop (line 1637). -/
def trade_gini (year : ℕ) : ℚ := if 118 ≤ year then 2/1000 else 0

/-- fisher_gini of the 116-120 Gini loop (lines 1640-1643). -/
def fisher_gini_116_120 (year : ℕ) : ℚ :=
  if FISHER_CYCLE_116_120_HIGH year then 5/1000 else -(4/1000)

/-- One step of the formal-economy Gini forecast (line 1646): previous
value plus the four deltas, with no mean-reversion term. -/
def gini_formal_step (year : ℕ) (prev : ℚ) : ℚ :=
  prev + community_gini year + training_gini year + trade_gini year
    + fisher_gini_116_120 year

/-- One step of the full-economy Gini forecast (line 1650): the formal
deltas plus the security effect, with no mean-reversion term. -/
def gini_full_step (year : ℕ) (prev : ℚ) : ℚ :=
  prev + community_gini year + training_gini year + trade_gini year
    + fisher_gini_116_120 year + security_gini_full year

/-- Effect schedules consumed by the 116-120 GDP loop
(lines 1550-1577), as a parameter so that the determinism of the loop
can be stated for every schedule. -/
structure GdpSched where
  communityTax : ℕ → ℚ
  communityBenefit : ℕ → ℚ
  securityCost : ℚ
  securityBenefit : ℕ → ℚ
  trainingBoost : ℕ → ℚ
  tradeBoost : ℕ → ℚ
  raiderBoost : ℚ
  raiderReduction : ℕ → ℚ
  fisherHigh : ℕ → Bool

/-- raider_gdp (line 1569). -/
def raider_gdp (s : GdpSched) (year : ℕ) : ℚ :=
  s.raiderBoost + s.raiderReduction year

/-- fisher_effect (lines 1555-1558). -/
def fisher_effect (s : GdpSched) (year : ℕ) : ℚ :=
  if s.fisherHigh year then 12/100 else -(8/100)

/-- policy_mult of the 116-120 loop (lines 1572-1573): one plus the
SUM of the active effects. -/
def policy_mult (s : GdpSched) (year : ℕ) : ℚ :=
  1 + (s.communityTax year + s.communityBenefit year + s.securityCost
    + s.securityBenefit year + s.trainingBoost year + s.tradeBoost year
    + raider_gdp s year)

/-- base_growth (line 1552). -/
def base_growth : ℚ := 1005/1000

/-- One iteration of the 116-120 GDP loop (line 1576). -/
def gdp_step (s : GdpSched) (year : ℕ) (prev_gdp : ℚ) : ℚ :=
  prev_gdp * base_growth * (1 + fisher_effect s year) * policy_mult s year

/-- COMMUNITY_CENTER_TAX dictionary (line 1451). -/
def COMMUNITY_CENTER_TAX : ℕ → ℚ
  | 116 => -(3/1000)
  | _ => 0

/-- COMMUNITY_CENTER_BENEFIT dictionary (lines 1452-1457). -/
def COMMUNITY_CENTER_BENEFIT : ℕ → ℚ
  | 117 => 10/1000
  | 118 => 12/1000
  | 119 => 15/1000
  | 120 => 15/1000
  | _ => 0

def SECURITY_INFRASTRUCTURE_COST : ℚ := -(5/1000)

/-- SECURITY_INFRASTRUCTURE_BENEFIT dictionary (lines 1469-1475). -/
def SECURITY_INFRASTRUCTURE_BENEFIT : ℕ → ℚ
  | 116 => 2/1000
  | 117 => 5/1000
  | 118 => 8/1000
  | 119 => 10/1000
  | 120 => 10/1000
  | _ => 0

/-- TRAINING_PROGRAMME_BOOST dictionary (line 1487). -/
def TRAINING_PROGRAMME_BOOST : ℕ → ℚ
  | 116 => 18/1000
  | _ => 0

/-- TRADE_AGREEMENT_BOOST dictionary (lines 1492-1496). -/
def TRADE_AGREEMENT_BOOST : ℕ → ℚ
  | 118 => 15/1000
  | 119 => 20/1000
  | 120 => 25/1000
  | _ => 0

def RAIDER_GDP_BOOST : ℚ := 15/1000

/-- RAIDER_GDP_REDUCTION dictionary (lines 1519-1525). -/
def RAIDER_GDP_REDUCTION : ℕ → ℚ
  | 117 => -(3/1000)
  | 118 => -(5/1000)
  | 119 => -(8/1000)
  | 120 => -(10/1000)
  | _ => 0

/-- The schedule actually hard-coded in the source for years 116-120. -/
def codeSched : GdpSched :=
  ⟨COMMUNITY_CENTER_TAX, COMMUNITY_CENTER_BENEFIT, SECURITY_INFRASTRUCTURE_COST,
   SECURITY_INFRASTRUCTURE_BENEFIT, TRAINING_PROGRAMME_BOOST, TRADE_AGREEMENT_BOOST,
   RAIDER_GDP_BOOST, RAIDER_GDP_REDUCTION, FISHER_CYCLE_116_120_HIGH⟩

/-- GDP_115 = ACTUAL_GDP[115] (line 1438 via line 354). -/
def GDP_115 : ℚ := 98120345/100

/-- Step relation of the 116-120 GDP loop: GdpRun s year prev series
holds when the loop, entered at the given year with the given previous
GDP, emits exactly the given forecast series and stops after year 120.
A relation (rather than only a function) is used so that determinism
is a statement and not a definition. -/
inductive GdpRun (s : GdpSched) : ℕ → ℚ → List ℚ → Prop where
  | done (prev : ℚ) : GdpRun s 121 prev []
  | step (year : ℕ) (prev : ℚ) (rest : List ℚ) (hy : year < 121)
      (h : GdpRun s (year + 1) (gdp_step s year prev) rest) :
      GdpRun s year prev (gdp_step s year prev :: rest)

/-- Executable form of the 116-120 GDP loop, driven by a fuel counter. -/
def gdpRunFrom (s : GdpSched) : ℕ → ℕ → ℚ → List ℚ
  | 0, _, _ => []
  | fuel + 1, year, prev =>
      gdp_step s year prev :: gdpRunFrom s fuel (year + 1) (gdp_step s year prev)

/- Happiness forecast 116-120 (src/main_script.py 1583-1615). -/

def HAPPINESS_BASELINE : ℚ := 100

/-- One step of the happiness loop (line 1614): previous value plus
the combined change, clamped by max(0, min(100, .)). -/
def happiness_step (prev_happiness total_change : ℚ) : ℚ :=
  max 0 (min 100 (prev_happiness + total_change))

/-- Happiness series after n loop iterations for an arbitrary per-year
total change, starting from the year-115 baseline of 100; index n
holds the value of year 115 + n. -/
def happiness_after (change : ℕ → ℚ) : ℕ → ℚ
  | 0 => HAPPINESS_BASELINE
  | n + 1 => happiness_step (happiness_after change n) (change (116 + n))

/-- COMMUNITY_CENTER_HAPPINESS dictionary (lines 1459-1464). -/
def COMMUNITY_CENTER_HAPPINESS : ℕ → ℚ
  | 117 => 2
  | 118 => 3
  | 119 => 4
  | 120 => 4
  | _ => 0

/-- SECURITY_HAPPINESS_BOOST dictionary (lines 1477-1483). -/
def SECURITY_HAPPINESS_BOOST : ℕ → ℚ
  | 116 => 1
  | 117 => 2
  | 118 => 3
  | 119 => 4
  | 120 => 4
  | _ => 0

/-- TRAINING_HAPPINESS dictionary (line 1488). -/
def TRAINING_HAPPINESS : ℕ → ℚ
  | 116 => 1
  | _ => 0

/-- TRADE_HAPPINESS dictionary (lines 1497-1501). -/
def TRADE_HAPPINESS : ℕ → ℚ
  | 118 => 3/2
  | 119 => 2
  | 120 => 2
  | _ => 0

/-- RAIDER_HAPPINESS_DRAG dictionary (lines 1510-1516). -/
def RAIDER_HAPPINESS_DRAG : ℕ → ℚ
  | 116 => -5
  | 117 => -4
  | 118 => -3
  | 119 => -2
  | 120 => -2
  | _ => 0

/-- fisher_happy (lines 1603-1606). -/
def fisher_happy (year : ℕ) : ℚ :=
  if FISHER_CYCLE_116_120_HIGH year then 3/2 else -1

/-- The concrete GDP series of the source, gdpSeq n being the forecast
GDP of year 115 + n (gdpSeq 0 is the year-115 actual baseline). -/
def gdpSeq : ℕ → ℚ
  | 0 => GDP_115
  | n + 1 => gdp_step codeSched (116 + n) (gdpSeq n)

/-- econ_happy (lines 1609-1610): GDP growth rate times 10. -/
def econ_happy (year : ℕ) : ℚ :=
  (gdpSeq (year - 115) - gdpSeq (year - 116)) / gdpSeq (year - 116) * 10

/-- total_change of the happiness loop (line 1613). -/
def total_happiness_change (year : ℕ) : ℚ :=
  COMMUNITY_CENTER_HAPPINESS year + SECURITY_HAPPINESS_BOOST year
    + TRAINING_HAPPINESS year + TRADE_HAPPINESS year
    + RAIDER_HAPPINESS_DRAG year + fisher_happy year + econ_happy year

/-- happiness_forecasts of the source, indexed by year. -/
def happiness_forecasts (year : ℕ) : ℚ :=
  happiness_after total_happiness_change (year - 115)

/-- PRESTIGE_106_BOOST_EXT dictionary (line 931). -/
def PRESTIGE_106_BOOST_EXT : ℕ → ℚ
  | 111 => 15/1000
  | _ => 0

/-- SPORTS_FACILITIES_BOOST dictionary (lines 877-884). -/
def SPORTS_FACILITIES_BOOST : ℕ → ℚ
  | 111 => 10/1000
  | 112 => 8/1000
  | 113 => 8/1000
  | 114 => 8/1000
  | 115 => 8/1000
  | 116 => 8/1000
  | _ => 0

/-- TAX_REDISTRIBUTION_DRAG dictionary (lines 918-924). -/
def TAX_REDISTRIBUTION_DRAG : ℕ → ℚ
  | 111 => -(15/1000)
  | 112 => -(12/1000)
  | 113 => -(10/1000)
  | 114 => -(8/1000)
  | 115 => -(8/1000)
  | _ => 0

/-- policy_111 (lines 978-980): product of the three (1 + effect)
factors active in year 111. -/
def policy_111 : ℚ :=
  (1 + PRESTIGE_106_BOOST_EXT 111) * (1 + SPORTS_FACILITIES_BOOST 111)
    * (1 + TAX_REDISTRIBUTION_DRAG 111)

/- ===================================================================
   THEOREMS
   =================================================================== -/

theorem rankWeightedSum_succ (l : List ℚ) :
    ∀ r : ℕ, rankWeightedSum (r + 1) l = rankWeightedSum r l + l.sum := by
  induction l with
  | nil => intro r; simp [rankWeightedSum]
  | cons x xs ih =>
    intro r
    simp only [rankWeightedSum, List.sum_cons, ih (r + 1)]
    push_cast
    ring

theorem length_mul_le_sum (l : List ℚ) (x : ℚ) (h : ∀ y ∈ l, x ≤ y) :
    (l.length : ℚ) * x ≤ l.sum := by
  induction l with
  | nil => simp
  | cons a as ih =>
    have ha : x ≤ a := h a (by simp)
    have ih' := ih (fun y hy => h y (by simp [hy]))
    simp only [List.length_cons, List.sum_cons]
    push_cast
    linarith

theorem two_rankWeightedSum_ge (l : List ℚ) (hs : l.Sorted (· ≤ ·)) :
    ((l.length : ℚ) + 1) * l.sum ≤ 2 * rankWeightedSum 1 l := by
  induction l with
  | nil => simp [rankWeightedSum]
  | cons x xs ih =>
    rw [List.sorted_cons] at hs
    obtain ⟨hx, hs'⟩ := hs
    have h1 := ih hs'
    have h2 : (xs.length : ℚ) * x ≤ xs.sum := length_mul_le_sum xs x hx
    have h3 : rankWeightedSum 2 xs = rankWeightedSum 1 xs + xs.sum :=
      rankWeightedSum_succ xs 1
    simp only [rankWeightedSum, List.sum_cons, List.length_cons, h3]
    push_cast
    nlinarith [h1, h2]

theorem rankWeightedSum_le (l : List ℚ) (h : ∀ y ∈ l, 0 ≤ y) :
    ∀ r : ℕ, rankWeightedSum r l ≤ ((r : ℚ) + (l.length : ℚ) - 1) * l.sum := by
  induction l with
  | nil => intro r; simp [rankWeightedSum]
  | cons x xs ih =>
    intro r
    have hx : 0 ≤ x := h x (by simp)
    have ih' := ih (fun y hy => h y (by simp [hy])) (r + 1)
    have hm : (0 : ℚ) ≤ (xs.length : ℚ) := by positivity
    simp only [rankWeightedSum, List.sum_cons, List.length_cons]
    push_cast at ih' ⊢
    nlinarith [ih', mul_nonneg hm hx]

theorem giniSorted_range (s : List ℚ) (hs : s.Sorted (· ≤ ·)) (hne : s ≠ [])
    (hpos : ∀ x ∈ s, 0 < x) : 0 ≤ giniSorted s ∧ giniSorted s < 1 := by
  have hn : (0 : ℚ) < (s.length : ℚ) := by
    have := List.length_pos.mpr hne
    exact_mod_cast this
  have hT : 0 < s.sum := List.sum_pos s hpos hne
  have hlow := two_rankWeightedSum_ge s hs
  have hup := rankWeightedSum_le s (fun y hy => (hpos y hy).le) 1
  have hup' : rankWeightedSum 1 s ≤ (s.length : ℚ) * s.sum := by
    have he : (((1 : ℕ) : ℚ) + (s.length : ℚ) - 1) = (s.length : ℚ) := by
      push_cast; ring
    rw [he] at hup
    exact hup
  constructor
  · rw [giniSorted, sub_nonneg, div_le_div_iff₀ hn (by positivity)]
    nlinarith [mul_le_mul_of_nonneg_right hlow hn.le]
  · rw [giniSorted]
    have h2 : 2 * rankWeightedSum 1 s / ((s.length : ℚ) * s.sum) ≤ 2 := by
      rw [div_le_iff₀ (by positivity)]
      nlinarith [hup']
    have h3 : 1 < ((s.length : ℚ) + 1) / (s.length : ℚ) := by
      rw [lt_div_iff₀ hn]
      linarith
    linarith

theorem filter_pos_of_all_pos (l : List ℚ) (h : ∀ x ∈ l, 0 < x) :
    l.filter (fun i => decide (0 < i)) = l := by
  induction l with
  | nil => rfl
  | cons a as ih =>
    have ha : (0 : ℚ) < a := h a (by simp)
    simp [List.filter_cons, ha, ih (fun x hx => h x (by simp [hx]))]

theorem calculate_gini_eq (l : List ℚ) (hne : l ≠ []) (hpos : ∀ x ∈ l, 0 < x) :
    calculate_gini l = giniSorted (List.insertionSort (· ≤ ·) l) := by
  have hlen0 : ¬ l.length = 0 := by simpa [List.length_eq_zero] using hne
  rw [calculate_gini, filter_pos_of_all_pos l hpos, if_neg hlen0, if_neg hlen0]

theorem sum_of_const (l : List ℚ) (c : ℚ) (h : ∀ x ∈ l, x = c) :
    l.sum = c * (l.length : ℚ) := by
  induction l with
  | nil => simp
  | cons a as ih =>
    have ha : a = c := h a (by simp)
    have ih' := ih (fun y hy => h y (by simp [hy]))
    simp only [List.sum_cons, List.length_cons, ih', ha]
    push_cast
    ring

theorem rankWeightedSum_const (l : List ℚ) (c : ℚ) (h : ∀ x ∈ l, x = c) :
    ∀ r : ℕ, 2 * rankWeightedSum r l
      = c * (l.length : ℚ) * (2 * (r : ℚ) + (l.length : ℚ) - 1) := by
  induction l with
  | nil => intro r; simp [rankWeightedSum]
  | cons a as ih =>
    intro r
    have ha : a = c := h a (by simp)
    have ih' := ih (fun y hy => h y (by simp [hy])) (r + 1)
    simp only [rankWeightedSum, List.length_cons, ha]
    push_cast at ih' ⊢
    nlinarith [ih']

/-- C5: for every non-empty list of strictly positive incomes,
calculate_gini returns a value that is at least 0 and strictly less
than 1. -/
theorem C5_gini_range (l : List ℚ) (hne : l ≠ []) (hpos : ∀ x ∈ l, 0 < x) :
    0 ≤ calculate_gini l ∧ calculate_gini l < 1 := by
  rw [calculate_gini_eq l hne hpos]
  have hperm := List.perm_insertionSort (· ≤ ·) l
  have hsorted := List.sorted_insertionSort (· ≤ ·) l
  apply giniSorted_range _ hsorted
  · intro hnil
    have hl := hperm.length_eq
    rw [hnil] at hl
    simp at hl
    exact hne (List.length_eq_zero.mp hl.symm)
  · intro x hx
    exact hpos x (hperm.mem_iff.mp hx)

/-- Witness for C5 at the concrete positive income list [1, 2, 3]. -/
theorem C5_gini_range_witness :
    0 ≤ calculate_gini [1, 2, 3] ∧ calculate_gini [1, 2, 3] < 1 :=
  C5_gini_range [1, 2, 3] (by simp) (by norm_num)

/-- C6: calculate_gini is exactly 0 on every non-empty list of
identical strictly positive incomes; on [10, 10, 10, 10] it is 0 and on
[1, 1, 1, 97] it is exactly 72/100 = 0.72. -/
theorem C6_gini_identical_values (l : List ℚ) (c : ℚ) (hne : l ≠ []) (hc : 0 < c)
    (hall : ∀ x ∈ l, x = c) :
    calculate_gini l = 0 ∧ calculate_gini [10, 10, 10, 10] = 0 ∧
      calculate_gini [1, 1, 1, 97] = 72 / 100 := by
  refine ⟨?_, ?_, ?_⟩
  · have hpos : ∀ x ∈ l, 0 < x := fun x hx => (hall x hx) ▸ hc
    rw [calculate_gini_eq l hne hpos]
    have hperm := List.perm_insertionSort (· ≤ ·) l
    have hall' : ∀ x ∈ List.insertionSort (· ≤ ·) l, x = c :=
      fun x hx => hall x (hperm.mem_iff.mp hx)
    have hn : (0 : ℚ) < ((List.insertionSort (· ≤ ·) l).length : ℚ) := by
      have h1 : 0 < l.length := List.length_pos.mpr hne
      have h2 := hperm.length_eq
      rw [h2]
      exact_mod_cast h1
    rw [giniSorted, rankWeightedSum_const _ c hall' 1, sum_of_const _ c hall']
    have hc0 : c ≠ 0 := hc.ne'
    have hn0 : ((List.insertionSort (· ≤ ·) l).length : ℚ) ≠ 0 := hn.ne'
    push_cast
    rw [sub_eq_zero, div_eq_div_iff (mul_ne_zero hn0 (mul_ne_zero hc0 hn0)) hn0]
    ring
  · norm_num [calculate_gini, giniSorted, rankWeightedSum, List.insertionSort,
      List.orderedInsert, List.filter]
  · norm_num [calculate_gini, giniSorted, rankWeightedSum, List.insertionSort,
      List.orderedInsert, List.filter]

/-- Witness for C6 at the concrete constant list [10, 10, 10, 10]. -/
theorem C6_gini_identical_values_witness :
    calculate_gini [10, 10, 10, 10] = 0 ∧ calculate_gini [1, 1, 1, 97] = 72 / 100 :=
  ⟨(C6_gini_identical_values [10, 10, 10, 10] 10 (by simp) (by norm_num)
      (by norm_num)).1,
   (C6_gini_identical_values [10, 10, 10, 10] 10 (by simp) (by norm_num)
      (by norm_num)).2.2⟩

/-- C7: calculate_gini applied to the empty income list returns exactly
0, a degenerate convention rather than an error. -/
theorem C7_gini_empty : calculate_gini ([] : List ℚ) = 0 := rfl


/-- C1 counterexample: in the years 116-120 chain the engine combines
the simultaneously active policy effects additively; at year 116 the
multiplier it applies equals 1 + sum(e_i) over the active effects and
is NOT the product of the (1 + e_i) factors, refuting the claim that
the combination is never additive. -/
theorem C1_counterexample :
    policy_mult codeSched 116
      = 1 + (COMMUNITY_CENTER_TAX 116 + COMMUNITY_CENTER_BENEFIT 116
        + SECURITY_INFRASTRUCTURE_COST + SECURITY_INFRASTRUCTURE_BENEFIT 116
        + TRAINING_PROGRAMME_BOOST 116 + TRADE_AGREEMENT_BOOST 116
        + (RAIDER_GDP_BOOST + RAIDER_GDP_REDUCTION 116))
    ∧ policy_mult codeSched 116
      ≠ (1 + COMMUNITY_CENTER_TAX 116) * (1 + COMMUNITY_CENTER_BENEFIT 116)
        * (1 + SECURITY_INFRASTRUCTURE_COST) * (1 + SECURITY_INFRASTRUCTURE_BENEFIT 116)
        * (1 + TRAINING_PROGRAMME_BOOST 116) * (1 + TRADE_AGREEMENT_BOOST 116)
        * (1 + (RAIDER_GDP_BOOST + RAIDER_GDP_REDUCTION 116)) := by
  constructor <;>
    norm_num [policy_mult, codeSched, raider_gdp, COMMUNITY_CENTER_TAX,
      COMMUNITY_CENTER_BENEFIT, SECURITY_INFRASTRUCTURE_COST,
      SECURITY_INFRASTRUCTURE_BENEFIT, TRAINING_PROGRAMME_BOOST,
      TRADE_AGREEMENT_BOOST, RAIDER_GDP_BOOST, RAIDER_GDP_REDUCTION]

/-- C1 amended: in the 101-105, 106-110 and 111-116 chains the
combined policy multiplier is the product of the (1 + effect) factors
and, with three or more nonzero simultaneous effects, differs from
the additive form 1 + sum(e_i) (shown at years 101, 106 and 111); in
the 116-120 chain the engine instead applies the additive form
1 + sum(e_i) at every year. -/
theorem C1_policy_multiplier_amended :
    policy_multiplier_101
      = (1 + PRESTIGE_PROJECT_BOOST 101) * (1 + RETIREMENT_POLICY_BOOST 101)
        * (1 + TRAINING_PROGRAM_BOOST 101)
    ∧ policy_multiplier_101
      ≠ 1 + (PRESTIGE_PROJECT_BOOST 101 + RETIREMENT_POLICY_BOOST 101
        + TRAINING_PROGRAM_BOOST 101)
    ∧ policy_106
      = (1 + PRESTIGE_101_CARRYOVER 106) * (1 + WIND_TRANSITION_DRAG)
        * (1 + WIND_DISPLEASURE_DRAG 106) * (1 + PRESTIGE_106_BOOST 106)
    ∧ policy_106
      ≠ 1 + (PRESTIGE_101_CARRYOVER 106 + WIND_TRANSITION_DRAG
        + WIND_DISPLEASURE_DRAG 106 + PRESTIGE_106_BOOST 106)
    ∧ policy_111
      = (1 + PRESTIGE_106_BOOST_EXT 111) * (1 + SPORTS_FACILITIES_BOOST 111)
        * (1 + TAX_REDISTRIBUTION_DRAG 111)
    ∧ policy_111
      ≠ 1 + (PRESTIGE_106_BOOST_EXT 111 + SPORTS_FACILITIES_BOOST 111
        + TAX_REDISTRIBUTION_DRAG 111)
    ∧ ∀ year : ℕ, policy_mult codeSched year
      = 1 + (COMMUNITY_CENTER_TAX year + COMMUNITY_CENTER_BENEFIT year
        + SECURITY_INFRASTRUCTURE_COST + SECURITY_INFRASTRUCTURE_BENEFIT year
        + TRAINING_PROGRAMME_BOOST year + TRADE_AGREEMENT_BOOST year
        + (RAIDER_GDP_BOOST + RAIDER_GDP_REDUCTION year)) := by
  refine ⟨rfl, ?_, rfl, ?_, rfl, ?_, fun year => rfl⟩
  · norm_num [policy_multiplier_101, PRESTIGE_PROJECT_BOOST,
      RETIREMENT_POLICY_BOOST, TRAINING_PROGRAM_BOOST]
  · norm_num [policy_106, PRESTIGE_101_CARRYOVER, WIND_TRANSITION_DRAG,
      WIND_DISPLEASURE_DRAG, PRESTIGE_106_BOOST]
  · norm_num [policy_111, PRESTIGE_106_BOOST_EXT, SPORTS_FACILITIES_BOOST,
      TAX_REDISTRIBUTION_DRAG]

/-- C3 counterexample: no single multiplier, and hence no product of
schedule-derived (1 + adjustment) factors, relates the prior fisher
income to the fisher income the engine produces for year 101: under
the scenario parameters the engine yields 800 for every prior fisher
income, including a prior income of 0, while the claimed formula
yields prior * m. -/
theorem C3_counterexample :
    ¬ ∃ m : ℚ, ∀ x : ℚ,
      fisher_101 scenarioParams101 ⟨x, 500, 0, 0, 0, 10⟩ = x * m := by
  rintro ⟨m, h⟩
  have h0 := h 0
  norm_num [fisher_101, scenarioParams101] at h0

/-- C3 amended: under scenario A the engine produces fisher_101 = 800,
farmer_101 = 250 and a tracked total of 1050, and the farmer, and the
other prior-income professions, follow the multiplicative
prior * (1 + adjustment) shape; but the fisher income for year 101 is
the cycle-phase average per head times the headcount, independent of
the prior fisher income. -/
theorem C3_scenario_amended :
    fisher_101 scenarioParams101 scenarioState100 = 800
    ∧ farmer_101 scenarioParams101 scenarioState100 = 250
    ∧ trackedTotal_101 scenarioParams101 scenarioState100 = 1050
    ∧ (∀ x : ℚ, fisher_101 scenarioParams101 ⟨x, 500, 0, 0, 0, 10⟩ = 800)
    ∧ (∀ (p : Params101) (s : State100),
        farmer_101 p s = s.farmer * ((1 + p.locustFarmerDamage) * (1 + p.weatherImpact101))) := by
  refine ⟨?_, ?_, ?_, fun x => ?_, fun p s => ?_⟩
  · norm_num [fisher_101, scenarioParams101, scenarioState100]
  · norm_num [farmer_101, scenarioParams101, scenarioState100]
  · norm_num [trackedTotal_101, fisher_101, farmer_101, craftsman_101,
      service_101, civil_101, scenarioParams101, scenarioState100]
  · norm_num [fisher_101, scenarioParams101]
  · rw [farmer_101]; ring

/-- C4 counterexample: the year-116 step of the formal-economy Gini
forecast is the previous value plus the policy and fisher deltas with
no mean-reversion term; at the concrete previous value 0.37 it yields
0.363, not the 0.3626 required by adding the mean-reversion term
(0.35 - 0.37) * 0.02. -/
theorem C4_counterexample :
    gini_formal_step 116 (37/100) = 363/1000
    ∧ gini_formal_step 116 (37/100)
      ≠ 37/100 + (community_gini 116 + training_gini 116 + trade_gini 116
        + fisher_gini_116_120 116) + (35/100 - 37/100) * (2/100) := by
  constructor <;>
    norm_num [gini_formal_step, community_gini, training_gini, trade_gini,
      fisher_gini_116_120, FISHER_CYCLE_116_120_HIGH]

/-- C4 amended: every step of the 111-115 Gini prediction adds the
policy deltas and the mean-reversion term (0.35 - gini) * 0.02 toward
the anchor 0.35, so its per-step drift depends on the current value;
the 116-120 formal and full Gini forecast steps add only
state-independent deltas, with no mean-reversion term. -/
theorem C4_mean_reversion_amended :
    (∀ (year : ℕ) (g : ℚ), predicted_gini_step year g - g
        = TAX_GINI_EFFECT year + FISHER_GINI_EFFECT year
          + FARMER_RESISTANCE_GINI year + COMMUNITY_GINI_EFFECT year
          + (35/100 - g) * (2/100))
    ∧ predicted_gini_step 111 (1/2) - 1/2 ≠ predicted_gini_step 111 0 - 0
    ∧ (∀ (year : ℕ) (g₁ g₂ : ℚ),
        gini_formal_step year g₁ - g₁ = gini_formal_step year g₂ - g₂)
    ∧ (∀ (year : ℕ) (g₁ g₂ : ℚ),
        gini_full_step year g₁ - g₁ = gini_full_step year g₂ - g₂) := by
  refine ⟨fun year g => ?_, ?_, fun year g₁ g₂ => ?_, fun year g₁ g₂ => ?_⟩
  · rw [predicted_gini_step]; ring
  · norm_num [predicted_gini_step, TAX_GINI_EFFECT, FISHER_GINI_EFFECT,
      FARMER_RESISTANCE_GINI, COMMUNITY_GINI_EFFECT]
  · rw [gini_formal_step, gini_formal_step]; ring
  · rw [gini_full_step, gini_full_step]; ring

/-- C2 counterexample: at a concrete year-105 baseline whose tracked
anchor total is 1000, taking the actual anchor GDP to be 2000 (so the
claimed scale factor would be 2), the GDP the engine computes for year
106 differs from the value required by the claimed scale-factor rule:
the engine applies no scale factor. -/
theorem C2_counterexample :
    trackedTotal_105 bC2 = 1000 ∧ gdp_106_specScaled 2000 bC2 ≠ gdp_106 bC2 := by
  constructor
  · norm_num [trackedTotal_105, bC2]
  · norm_num [gdp_106_specScaled, gdp_106, trackedTotal_105, prof_sum_106, fisher_106,
      craftsman_106, service_106, civil_106, farmer_106, retired_106, RETIRED_PROJ,
      hm_income_106, hm_count_106, hm_leaving_106, unemp_106, cum_entrant_inc_106,
      HOMEMAKER_EXIT_RATE, HOME_UNEMP_GROWTH, ENTRANT_GROWTH, NEW_ENTRANT_INCOME,
      FISHER_LOW_AVG_R, CRAFTSMAN_GROWTH_R, SERVICE_GROWTH_R, CIVIL_SERVANT_GROWTH_R,
      FARMER_GROWTH_R, POP_PRODUCTIVITY_NEW, policy_106, PRESTIGE_101_CARRYOVER,
      WIND_TRANSITION_DRAG, WIND_DISPLEASURE_DRAG, PRESTIGE_106_BOOST, bC2]

/-- C2 amended: the engine applies no anchor scale factor at all; the
first forecast year of the 106 chain is the tracked profession total
times the productivity and policy multipliers directly, and it
coincides with the scale-factor formula of the spec exactly when the
anchor actual GDP equals the tracked anchor total, that is when the
claimed scale factor is 1. -/
theorem C2_no_scale_factor_amended (b : Baseline105) (g : ℚ)
    (ht : trackedTotal_105 b ≠ 0) (hp : prof_sum_106 b ≠ 0) :
    (gdp_106_specScaled g b = gdp_106 b ↔ g = trackedTotal_105 b)
    ∧ gdp_106 b = prof_sum_106 b * POP_PRODUCTIVITY_NEW 106 * policy_106 := by
  have hpol : policy_106 ≠ 0 := by
    norm_num [policy_106, PRESTIGE_101_CARRYOVER, WIND_TRANSITION_DRAG,
      WIND_DISPLEASURE_DRAG, PRESTIGE_106_BOOST]
  have hpop : POP_PRODUCTIVITY_NEW 106 ≠ 0 := by norm_num [POP_PRODUCTIVITY_NEW]
  have hk : prof_sum_106 b * POP_PRODUCTIVITY_NEW 106 * policy_106 ≠ 0 :=
    mul_ne_zero (mul_ne_zero hp hpop) hpol
  refine ⟨⟨?_, ?_⟩, rfl⟩
  · intro h
    rw [gdp_106_specScaled, gdp_106] at h
    have h1 : g / trackedTotal_105 b * (prof_sum_106 b * POP_PRODUCTIVITY_NEW 106 * policy_106)
        = 1 * (prof_sum_106 b * POP_PRODUCTIVITY_NEW 106 * policy_106) := by
      rw [one_mul]
      linear_combination h
    have h2 := mul_right_cancel₀ hk h1
    rwa [div_eq_one_iff_eq ht] at h2
  · intro h
    subst h
    rw [gdp_106_specScaled, gdp_106, div_self ht]
    ring

/-- Witness for the amended C2: at the concrete baseline bC2 the
scale-factor formula with anchor GDP 1000 (equal to the tracked total)
gives the same GDP as the engine. -/
theorem C2_no_scale_factor_amended_witness :
    gdp_106_specScaled 1000 bC2 = gdp_106 bC2 :=
  (C2_no_scale_factor_amended bC2 1000
    (by norm_num [trackedTotal_105, bC2])
    (by norm_num [prof_sum_106, fisher_106, craftsman_106, service_106, civil_106,
      farmer_106, retired_106, RETIRED_PROJ, hm_income_106, hm_count_106,
      hm_leaving_106, unemp_106, cum_entrant_inc_106, HOMEMAKER_EXIT_RATE,
      HOME_UNEMP_GROWTH, ENTRANT_GROWTH, NEW_ENTRANT_INCOME, FISHER_LOW_AVG_R,
      CRAFTSMAN_GROWTH_R, SERVICE_GROWTH_R, CIVIL_SERVANT_GROWTH_R,
      FARMER_GROWTH_R, bC2])).1.mpr
    (by norm_num [trackedTotal_105, bC2])

theorem year_106_advance_ok (b : Baseline105) (hb : b.hmCount ≠ 0) :
    year_106_advance b = Except.ok (gdp_106 b) := by
  simp [year_106_advance, divE, hb, gdp_106, prof_sum_106, hm_income_106]

/-- C8: if a denominator headcount of the per-year advance is zero,
the whole computation of that year fails with the divisionByZero
signal instead of producing a value: the year-106 advance fails when
the prior homemaker headcount is zero, and the FISHER_HIGH_AVG_110
recalibration fails when the year-102 fisher workforce is zero. -/
theorem C8_division_by_zero_signal (b : Baseline105) (inc wf : ℕ → ℚ)
    (hb : b.hmCount = 0) (hw : wf 102 = 0) :
    year_106_advance b = Except.error EngineError.divisionByZero
    ∧ FISHER_HIGH_AVG_110_calc inc wf = Except.error EngineError.divisionByZero := by
  constructor
  · simp [year_106_advance, divE, hb]
  · simp [FISHER_HIGH_AVG_110_calc, divE, hw, Bind.bind, Except.bind]

/-- Witness for C8 at a concrete all-zero baseline and a zero
workforce table. -/
theorem C8_division_by_zero_signal_witness :
    year_106_advance ⟨0, 0, 0, 0, 0, 0, 0, 0, 0, 0⟩
      = Except.error EngineError.divisionByZero
    ∧ FISHER_HIGH_AVG_110_calc (fun _ => 1) (fun _ => 0)
      = Except.error EngineError.divisionByZero :=
  C8_division_by_zero_signal ⟨0, 0, 0, 0, 0, 0, 0, 0, 0, 0⟩ (fun _ => 1) (fun _ => 0)
    rfl rfl

/-- C9: the projection loop is deterministic: for every effect
schedule, every entry year and every previous GDP, any two forecast
series the step relation admits are equal, so two runs over the same
baseline and schedules yield identical series. -/
theorem C9_projection_deterministic (s : GdpSched) (year : ℕ) (prev : ℚ)
    (l₁ l₂ : List ℚ) (h₁ : GdpRun s year prev l₁) (h₂ : GdpRun s year prev l₂) :
    l₁ = l₂ := by
  induction h₁ generalizing l₂ with
  | done p =>
    cases h₂ with
    | done => rfl
    | step y p r hy h => exact absurd hy (by norm_num)
  | step y p r hy h ih =>
    cases h₂ with
    | done => exact absurd hy (by norm_num)
    | step _ _ r₂ hy₂ h₂' => rw [ih r₂ h₂']

theorem gdpRunFrom_spec (s : GdpSched) :
    ∀ (fuel year : ℕ) (prev : ℚ), year + fuel = 121 →
      GdpRun s year prev (gdpRunFrom s fuel year prev) := by
  intro fuel
  induction fuel with
  | zero =>
    intro year prev h
    have hy : year = 121 := by omega
    subst hy
    exact GdpRun.done prev
  | succ n ih =>
    intro year prev h
    exact GdpRun.step year prev _ (by omega) (ih (year + 1) _ (by omega))

/-- Witness for C9: the concrete 116-120 run of the source (schedule
codeSched from the year-115 actual GDP) satisfies the relation, and
applying the determinism theorem to it twice yields equality of the
two runs. -/
theorem C9_projection_deterministic_witness :
    gdpRunFrom codeSched 5 116 GDP_115 = gdpRunFrom codeSched 5 116 GDP_115 :=
  C9_projection_deterministic codeSched 116 GDP_115 _ _
    (gdpRunFrom_spec codeSched 5 116 GDP_115 (by norm_num))
    (gdpRunFrom_spec codeSched 5 116 GDP_115 (by norm_num))

/-- C10: for every forecast year 116 through 120 the projected
happiness stays within 0 and 100, whatever the magnitude of the
per-year combined change, because each step clamps the previous value
plus the change by max(0, min(100, .)); in particular the concrete
happiness forecasts of the source stay within the bounds. -/
theorem C10_happiness_bounded (change : ℕ → ℚ) (year : ℕ)
    (h1 : 116 ≤ year) (h2 : year ≤ 120) :
    (0 ≤ happiness_after change (year - 115) ∧ happiness_after change (year - 115) ≤ 100)
    ∧ (0 ≤ happiness_forecasts year ∧ happiness_forecasts year ≤ 100) := by
  have key : ∀ (c : ℕ → ℚ) (n : ℕ),
      0 ≤ happiness_after c (n + 1) ∧ happiness_after c (n + 1) ≤ 100 := by
    intro c n
    constructor
    · exact le_max_left 0 _
    · exact max_le (by norm_num) (min_le_left _ _)
  have hn : year - 115 = (year - 116) + 1 := by omega
  rw [hn]
  refine ⟨key change _, ?_⟩
  rw [happiness_forecasts, hn]
  exact key total_happiness_change _

/-- Witness for C10 at year 120 with the concrete change schedule of
the source. -/
theorem C10_happiness_bounded_witness :
    (0 ≤ happiness_after total_happiness_change (120 - 115)
      ∧ happiness_after total_happiness_change (120 - 115) ≤ 100)
    ∧ (0 ≤ happiness_forecasts 120 ∧ happiness_forecasts 120 ≤ 100) :=
  C10_happiness_bounded total_happiness_change 120 (by norm_num) (by norm_num)

end HagelslagIsland
